import Mathlib

/-!
Verification development for the propeller actuator-disk model
(`src/propforce/model.py`) and its loading optimizer
(`src/propforce/optimize.py`).  Python floating-point arithmetic is
embedded as real arithmetic; numpy arrays become lists of reals with
elementwise operations.
-/

namespace Propforce

noncomputable section

/-- Propeller geometric parameters (`PropellerGeometry` in model.py). -/
structure PropellerGeometry where
  diameter : ℝ
  num_blades : ℕ := 2
  hub_radius_ratio : ℝ := 0.2

/-- Derived tip radius: `diameter / 2.0`. -/
def PropellerGeometry.radius (g : PropellerGeometry) : ℝ := g.diameter / 2

/-- Derived hub radius: `radius * hub_radius_ratio`. -/
def PropellerGeometry.hub_radius (g : PropellerGeometry) : ℝ :=
  g.radius * g.hub_radius_ratio

/-- Operating conditions (`FlowConditions` in model.py). -/
structure FlowConditions where
  velocity_inf : ℝ
  rpm : ℝ
  rho : ℝ := 1.225

/-- Angular velocity in rad/s: `rpm * 2 * pi / 60.0`. -/
def FlowConditions.omega (f : FlowConditions) : ℝ := f.rpm * 2 * Real.pi / 60

/-- Rotational speed in rev/s: `rpm / 60.0`. -/
def FlowConditions.n (f : FlowConditions) : ℝ := f.rpm / 60

/-- Embedding of `np.linspace a b n`: n points from a to b inclusive.  For `n = 1`
the step degenerates (division by zero gives 0 in Lean) and the single
point is `a`, matching numpy. -/
def linspace (a b : ℝ) (n : ℕ) : List ℝ :=
  (List.range n).map (fun i : ℕ => a + (i : ℝ) * (b - a) / ((n : ℝ) - 1))

/-- First entry of `np.gradient` of a list: the one-sided difference at
the left edge, `l[1] - l[0]`. -/
def gradientFirst : List ℝ → ℝ
  | a :: b :: _ => b - a
  | _ => 0

/-- Embedding of `np.trapz ys dx`: trapezoidal rule with uniform spacing `dx`. -/
def trapz (dx : ℝ) : List ℝ → ℝ
  | y1 :: y2 :: ys => dx * (y1 + y2) / 2 + trapz dx (y2 :: ys)
  | _ => 0

/-- Trapezoidal integral of `ys` over the (possibly nonuniform) grid
`xs`: the sum of `(x_next - x) * (y + y_next) / 2` over consecutive
stations.  This is the spec-side notion of "trapezoidal integral over
the radial grid". -/
def trapzGrid : List ℝ → List ℝ → ℝ
  | x1 :: x2 :: xs, y1 :: y2 :: ys =>
      (x2 - x1) * (y1 + y2) / 2 + trapzGrid (x2 :: xs) (y2 :: ys)
  | _, _ => 0

/-- Accumulator for `sum_i coeffs[i] * x ^ i`, mirroring the
`for i, c in enumerate(coeffs)` loop with running exponent `i`. -/
def polyEvalAux (x : ℝ) : List ℝ → ℕ → ℝ
  | [], _ => 0
  | c :: cs, i => c * x ^ i + polyEvalAux x cs (i + 1)

/-- Polynomial evaluation `sum_i coeffs[i] * x ^ i`. -/
def polyEval (coeffs : List ℝ) (x : ℝ) : ℝ := polyEvalAux x coeffs 0

/-- Embedding of `np.clip a lo hi = np.minimum(hi, np.maximum(a, lo))`. -/
def clip (a lo hi : ℝ) : ℝ := min hi (max lo a)

/-- The actuator-disk model (`RadialActuatorDisk` in model.py); holds
the geometry, station count and tip-loss factor, from which the radial
grid is derived. -/
structure RadialActuatorDisk where
  geom : PropellerGeometry
  n_stations : ℕ := 30
  tip_loss : ℝ := 0.95

namespace RadialActuatorDisk

/-- Radial grid from hub to tip:
`np.linspace(hub_radius, radius, num_radial_stations)`. -/
def r_stations (m : RadialActuatorDisk) : List ℝ :=
  linspace m.geom.hub_radius m.geom.radius m.n_stations

/-- Normalized radii `r_stations / radius`. -/
def r_norm (m : RadialActuatorDisk) : List ℝ :=
  m.r_stations.map (fun r => r / m.geom.radius)

/-- Tip-loss taper multiplier at one normalized radius:
`np.clip(1.0 - (1.0 - tip_loss) * (r_norm - 0.7) / 0.3, tip_loss, 1.0)`. -/
def taperAt (tip_loss rn : ℝ) : ℝ :=
  clip (1 - (1 - tip_loss) * (rn - 0.7) / 0.3) tip_loss 1

/-- Method `compute_loading_distribution`: evaluate the polynomial at every
station, multiply by the tip-loss taper, clamp to `>= 0`. -/
def compute_loading_distribution (m : RadialActuatorDisk) (coeffs : List ℝ) :
    List ℝ :=
  m.r_norm.map (fun rn => max (polyEval coeffs rn * taperAt m.tip_loss rn) 0)

/-- One station of `compute_induced_velocity`: first estimate
`w0 = dT / (4 pi rho (V_inf + 1e-3) r + 1e-6)`, then one corrector step
with effective velocity `V_inf + 0.5 * w0`. -/
def inducedVelocityAt (flow : FlowConditions) (dT r : ℝ) : ℝ :=
  let w0 := dT / (4 * Real.pi * flow.rho * (flow.velocity_inf + 0.001) * r + 0.000001)
  dT / (4 * Real.pi * flow.rho * (flow.velocity_inf + 0.5 * w0) * r + 0.000001)

/-- Method `compute_induced_velocity`, elementwise over loading and stations. -/
def compute_induced_velocity (m : RadialActuatorDisk) (dT_dr : List ℝ)
    (flow : FlowConditions) : List ℝ :=
  List.zipWith (inducedVelocityAt flow) dT_dr m.r_stations

end RadialActuatorDisk

/-- The tuple returned by `compute_performance`:
`(thrust, torque, power, dT_dr, w)`. -/
structure Performance where
  thrust : ℝ
  torque : ℝ
  power : ℝ
  dT_dr : List ℝ
  w : List ℝ

/-- Method `compute_performance`: loading, induced velocity, then thrust =
`np.trapz(dT_dr, dx=dr[0])`, torque = `np.trapz(0.05 * dT_dr *
r_stations, dx=dr[0])`, power = axial trapz integral of
`dT_dr * (velocity_inf + w)` plus `torque * omega`, where
`dr = np.gradient(r_stations)`. -/
def RadialActuatorDisk.compute_performance (m : RadialActuatorDisk)
    (coeffs : List ℝ) (flow : FlowConditions) : Performance :=
  let dT_dr := m.compute_loading_distribution coeffs
  let w := m.compute_induced_velocity dT_dr flow
  let dr0 := gradientFirst m.r_stations
  let thrust := trapz dr0 dT_dr
  let dQ_dr := List.zipWith (fun t r => 0.05 * t * r) dT_dr m.r_stations
  let torque := trapz dr0 dQ_dr
  let dP_axial_dr := List.zipWith (fun t wi => t * (flow.velocity_inf + wi)) dT_dr w
  let power_axial := trapz dr0 dP_axial_dr
  let power := power_axial + torque * flow.omega
  ⟨thrust, torque, power, dT_dr, w⟩

/-- The history dict of `optimize_loading`:
`{'iter': [], 'objective': [], 'thrust': [], 'power': []}`. -/
structure History where
  iter : List ℕ
  objective : List ℝ
  thrust : List ℝ
  power : List ℝ

/-- Mutable evaluation state of one `optimize_loading` invocation: the
history dict plus the `iter_count` cell. -/
structure EvalTrace where
  history : History
  iter_count : ℕ

/-- Fresh state at the top of `optimize_loading`. -/
def initTrace : EvalTrace := ⟨⟨[], [], [], []⟩, 0⟩

/-- Function `objective_function` from optimize.py as an explicit state passer.
It first calls `compute_performance`, appends the iteration index,
thrust and power to the history and bumps the counter; only then does
it branch on the objective kind, appending the objective value on the
two recognized kinds and raising `ValueError` otherwise.  The returned
state reflects the mutations performed before a potential raise. -/
def objective_function (m : RadialActuatorDisk) (flow : FlowConditions)
    (objective : String) (coeffs : List ℝ) (s : EvalTrace) :
    Except String ℝ × EvalTrace :=
  let perf := m.compute_performance coeffs flow
  let h := s.history
  let s1 : EvalTrace :=
    ⟨⟨h.iter ++ [s.iter_count], h.objective,
      h.thrust ++ [perf.thrust], h.power ++ [perf.power]⟩,
     s.iter_count + 1⟩
  if objective = "min_power" then
    (Except.ok perf.power,
     ⟨⟨s1.history.iter, s1.history.objective ++ [perf.power],
       s1.history.thrust, s1.history.power⟩, s1.iter_count⟩)
  else if objective = "max_thrust" then
    (Except.ok (-perf.thrust),
     ⟨⟨s1.history.iter, s1.history.objective ++ [-perf.thrust],
       s1.history.thrust, s1.history.power⟩, s1.iter_count⟩)
  else
    (Except.error ("Unknown objective: " ++ objective), s1)

/-- Modelled from the spec: the SciPy solver invoked by
`optimize_loading` is an external collaborator, not part of this
repository.  Per the spec's protocol, each solver-requested evaluation
invokes the objective function, starting from the initial guess; the
solver is abstracted as the list of coefficient vectors it requests.
Evaluations run in order until one raises, in which case the error
propagates together with the state accumulated so far. -/
def runObjectiveEvals (m : RadialActuatorDisk) (flow : FlowConditions)
    (objective : String) : List (List ℝ) → EvalTrace →
    Except String Unit × EvalTrace
  | [], s => (Except.ok (), s)
  | x :: xs, s =>
      match objective_function m flow objective x s with
      | (Except.ok _, s1) => runObjectiveEvals m flow objective xs s1
      | (Except.error e, s1) => (Except.error e, s1)

/-- The solver's output record (the fields of SciPy's result that
`optimize_loading` reads: `res.x`, `res.success`, `res.fun`,
`res.nit`, `res.message`). -/
structure SolverOutput where
  x : List ℝ
  success : Bool
  fun_val : ℝ
  nit : ℕ
  message : String

/-- Dataclass `OptimizationResult` from optimize.py. -/
structure OptimizationResult where
  success : Bool
  optimal_coeffs : List ℝ
  optimal_value : ℝ
  thrust : ℝ
  power : ℝ
  iterations : ℕ
  message : String
  history : History

/-- Tail of `optimize_loading`: after the solver returns, performance
is recomputed fresh at `res.x` and the result record is assembled from
it (`T_final`, `P_final`), never from solver-internal values. -/
def finalizeResult (m : RadialActuatorDisk) (flow : FlowConditions)
    (res : SolverOutput) (history : History) : OptimizationResult :=
  let perf := m.compute_performance res.x flow
  ⟨res.success, res.x, res.fun_val, perf.thrust, perf.power,
   res.nit, res.message, history⟩

/-- Modelled from the spec: `optimize_loading` with the external
solver abstracted as the evaluation schedule it requests (first point
the initial guess) plus its output record.  If any objective
evaluation raises, the error propagates (with the trace accumulated up
to and including that evaluation); otherwise the result is assembled
by `finalizeResult` from a fresh `compute_performance` call at the
solver's final point. -/
def optimize_loading (m : RadialActuatorDisk) (flow : FlowConditions)
    (objective : String) (schedule : List (List ℝ)) (res : SolverOutput) :
    Except String OptimizationResult × EvalTrace :=
  match runObjectiveEvals m flow objective schedule initTrace with
  | (Except.ok _, s) => (Except.ok (finalizeResult m flow res s.history), s)
  | (Except.error e, s) => (Except.error e, s)

end

/-! Helper lemmas about the list combinators used by the model. -/

theorem mem_zipWith : ∀ {as bs : List ℝ} {x : ℝ} (f : ℝ → ℝ → ℝ),
    x ∈ List.zipWith f as bs → ∃ a b, a ∈ as ∧ b ∈ bs ∧ x = f a b := by
  intro as
  induction as with
  | nil => intro bs x f hx; simp at hx
  | cons a as ih =>
    intro bs x f hx
    cases bs with
    | nil => simp at hx
    | cons b bs =>
      rw [List.zipWith_cons_cons, List.mem_cons] at hx
      rcases hx with hx | hx
      · exact ⟨a, b, List.mem_cons_self a as, List.mem_cons_self b bs, hx⟩
      · obtain ⟨a1, b1, ha, hb, hxe⟩ := ih f hx
        exact ⟨a1, b1, List.mem_cons_of_mem a ha, List.mem_cons_of_mem b hb, hxe⟩

theorem getD_nonneg {l : List ℝ} (h : ∀ x ∈ l, 0 ≤ x) : ∀ i : ℕ, 0 ≤ l.getD i 0 := by
  induction l with
  | nil => intro i; simp
  | cons a t ih =>
    intro i
    cases i with
    | zero => simpa using h a (List.mem_cons_self a t)
    | succ j =>
      rw [List.getD_cons_succ]
      exact ih (fun x hx => h x (List.mem_cons_of_mem a hx)) j

theorem trapz_eq_zero (dx : ℝ) : ∀ {l : List ℝ}, (∀ y ∈ l, y = 0) → trapz dx l = 0 := by
  intro l
  induction l with
  | nil => intro _; rfl
  | cons a t ih =>
    intro h
    cases t with
    | nil => rfl
    | cons b t2 =>
      have ha := h a (List.mem_cons_self _ _)
      have hb := h b (List.mem_cons_of_mem _ (List.mem_cons_self _ _))
      have ht : ∀ y ∈ b :: t2, y = 0 := fun y hy => h y (List.mem_cons_of_mem _ hy)
      show dx * (a + b) / 2 + trapz dx (b :: t2) = 0
      rw [ih ht, ha, hb]
      ring

theorem polyEvalAux_replicate_zero (x : ℝ) : ∀ (k i : ℕ),
    polyEvalAux x (List.replicate k 0) i = 0 := by
  intro k
  induction k with
  | zero => intro i; rfl
  | succ j ih =>
    intro i
    show (0 : ℝ) * x ^ i + polyEvalAux x (List.replicate j 0) (i + 1) = 0
    rw [ih]; ring

/-! Unfolding lemmas for the fields of `compute_performance`. -/

theorem perf_dT_dr (m : RadialActuatorDisk) (coeffs : List ℝ) (flow : FlowConditions) :
    (m.compute_performance coeffs flow).dT_dr = m.compute_loading_distribution coeffs := rfl

theorem perf_w (m : RadialActuatorDisk) (coeffs : List ℝ) (flow : FlowConditions) :
    (m.compute_performance coeffs flow).w
      = m.compute_induced_velocity (m.compute_loading_distribution coeffs) flow := rfl

theorem perf_thrust (m : RadialActuatorDisk) (coeffs : List ℝ) (flow : FlowConditions) :
    (m.compute_performance coeffs flow).thrust
      = trapz (gradientFirst m.r_stations) (m.compute_loading_distribution coeffs) := rfl

theorem perf_torque (m : RadialActuatorDisk) (coeffs : List ℝ) (flow : FlowConditions) :
    (m.compute_performance coeffs flow).torque
      = trapz (gradientFirst m.r_stations)
          (List.zipWith (fun t r => 0.05 * t * r)
            (m.compute_loading_distribution coeffs) m.r_stations) := rfl

theorem perf_power (m : RadialActuatorDisk) (coeffs : List ℝ) (flow : FlowConditions) :
    (m.compute_performance coeffs flow).power
      = trapz (gradientFirst m.r_stations)
          (List.zipWith (fun t wi => t * (flow.velocity_inf + wi))
            (m.compute_loading_distribution coeffs)
            (m.compute_induced_velocity (m.compute_loading_distribution coeffs) flow))
        + (m.compute_performance coeffs flow).torque * flow.omega := rfl

/-! Claim theorems. -/

/-- C10: the thrust returned by `compute_performance` does not depend
on the flow state: for every coefficient vector and any two flow
conditions, the two calls return exactly the same thrust, because the
loading distribution and its trapezoidal integral use only the
coefficients and the fixed radial grid. -/
theorem thrust_independent_of_flow (m : RadialActuatorDisk) (coeffs : List ℝ)
    (flow1 flow2 : FlowConditions) :
    (m.compute_performance coeffs flow1).thrust
      = (m.compute_performance coeffs flow2).thrust := rfl

/-- Geometry of the stored-baseline configuration
(`test_regression_baseline_performance`): diameter 0.254 m, 2 blades,
hub ratio 0.2. -/
def geomBase : PropellerGeometry := ⟨0.254, 2, 0.2⟩

/-- Model on that geometry with 30 stations and tip loss 0.95. -/
def modelBase : RadialActuatorDisk := ⟨geomBase, 30, 0.95⟩

/-- The fixed coefficient vector `[0.5, 1.0, 3.0, -1.5, 0.0]`. -/
def coeffsBase : List ℝ := [0.5, 1, 3, -1.5, 0]

/-- Flow at 10 m/s freestream, air density, given rpm. -/
def flowAtRpm (rpm : ℝ) : FlowConditions := ⟨10, rpm, 1.225⟩

/-- C1: at the claim's inputs (coefficients `[0.5, 1.0, 3.0, -1.5, 0.0]`,
velocity 10 m/s) the thrust values at rpm 2000, 4000 and 6000 are all
exactly equal — thrust never depends on rpm — so the claimed strict
increase `thrust(2000) < thrust(4000) < thrust(6000)` fails, even
though the repository's own test suite asserts it. -/
theorem thrust_equal_across_rpm_at_claim_input :
    (modelBase.compute_performance coeffsBase (flowAtRpm 2000)).thrust
      = (modelBase.compute_performance coeffsBase (flowAtRpm 4000)).thrust
    ∧ (modelBase.compute_performance coeffsBase (flowAtRpm 4000)).thrust
      = (modelBase.compute_performance coeffsBase (flowAtRpm 6000)).thrust := ⟨rfl, rfl⟩

/-- C5: every element of the array returned by
`compute_loading_distribution` is nonnegative, for every coefficient
vector and every geometry, because of the final clamp to `>= 0`. -/
theorem loading_elementwise_nonneg (m : RadialActuatorDisk) (coeffs : List ℝ)
    (i : ℕ) : 0 ≤ (m.compute_loading_distribution coeffs).getD i 0 := by
  refine getD_nonneg ?_ i
  intro x hx
  rw [RadialActuatorDisk.compute_loading_distribution, List.mem_map] at hx
  obtain ⟨rn, _, rfl⟩ := hx
  exact le_max_right _ _

/-- All elements of the loading for an all-zero coefficient vector are zero. -/
theorem loading_replicate_zero (m : RadialActuatorDisk) (k : ℕ) :
    ∀ y ∈ m.compute_loading_distribution (List.replicate k 0), y = 0 := by
  intro y hy
  rw [RadialActuatorDisk.compute_loading_distribution, List.mem_map] at hy
  obtain ⟨rn, _, rfl⟩ := hy
  rw [polyEval, polyEvalAux_replicate_zero]
  simp

/-- C8: for the all-zero coefficient vector (of any length) and every
flow state, `compute_performance` returns thrust and power of absolute
value below `1e-6`; in the real-arithmetic model both are exactly 0. -/
theorem zero_coeffs_thrust_power_small (m : RadialActuatorDisk)
    (flow : FlowConditions) (k : ℕ) :
    |(m.compute_performance (List.replicate k 0) flow).thrust| < 0.000001
    ∧ |(m.compute_performance (List.replicate k 0) flow).power| < 0.000001 := by
  have hload := loading_replicate_zero m k
  have hthrust : (m.compute_performance (List.replicate k 0) flow).thrust = 0 := by
    rw [perf_thrust]
    exact trapz_eq_zero _ hload
  have htorque : (m.compute_performance (List.replicate k 0) flow).torque = 0 := by
    rw [perf_torque]
    refine trapz_eq_zero _ ?_
    intro y hy
    obtain ⟨t, r, ht, _, rfl⟩ := mem_zipWith _ hy
    rw [hload t ht]; ring
  have hpower : (m.compute_performance (List.replicate k 0) flow).power = 0 := by
    rw [perf_power, htorque]
    have haxial : trapz (gradientFirst m.r_stations)
        (List.zipWith (fun t wi => t * (flow.velocity_inf + wi))
          (m.compute_loading_distribution (List.replicate k 0))
          (m.compute_induced_velocity
            (m.compute_loading_distribution (List.replicate k 0)) flow)) = 0 := by
      refine trapz_eq_zero _ ?_
      intro y hy
      obtain ⟨t, wi, ht, _, rfl⟩ := mem_zipWith _ hy
      rw [hload t ht]; ring
    rw [haxial]; ring
  rw [hthrust, hpower]
  norm_num

/-- C7: for every `tip_loss_factor` in `(0, 1]`, the taper multiplier
used by `compute_loading_distribution` equals 1 wherever the
normalized radius is at most 0.7, equals the linear interpolation
`1 - (1 - tip_loss) * (rn - 0.7) / 0.3` on `[0.7, 1]` (hence decreases
linearly from 1 at 0.7 to `tip_loss` at 1), and always stays within
`[tip_loss, 1]`. -/
theorem taper_multiplier_piecewise (tl : ℝ) (h0 : 0 < tl) (h1 : tl ≤ 1) :
    (∀ rn : ℝ, rn ≤ 0.7 → RadialActuatorDisk.taperAt tl rn = 1)
    ∧ (∀ rn : ℝ, 0.7 ≤ rn → rn ≤ 1 →
        RadialActuatorDisk.taperAt tl rn = 1 - (1 - tl) * (rn - 0.7) / 0.3)
    ∧ ∀ rn : ℝ,
        tl ≤ RadialActuatorDisk.taperAt tl rn ∧ RadialActuatorDisk.taperAt tl rn ≤ 1 := by
  refine ⟨?_, ?_, ?_⟩
  · intro rn hrn
    rw [RadialActuatorDisk.taperAt, clip]
    have hprod : (1 - tl) * (rn - 0.7) ≤ 0 :=
      mul_nonpos_of_nonneg_of_nonpos (by linarith) (by linarith)
    have hdiv : (1 - tl) * (rn - 0.7) / 0.3 ≤ 0 :=
      div_nonpos_iff.2 (Or.inr ⟨hprod, by norm_num⟩)
    have hpre : (1 : ℝ) ≤ 1 - (1 - tl) * (rn - 0.7) / 0.3 := by linarith
    exact min_eq_left (le_trans hpre (le_max_right _ _))
  · intro rn hlo hhi
    rw [RadialActuatorDisk.taperAt, clip]
    have hprod : 0 ≤ (1 - tl) * (rn - 0.7) :=
      mul_nonneg (by linarith) (by linarith)
    have hdiv : 0 ≤ (1 - tl) * (rn - 0.7) / 0.3 := div_nonneg hprod (by norm_num)
    have hup : 1 - (1 - tl) * (rn - 0.7) / 0.3 ≤ 1 := by linarith
    have hkey : (1 - tl) * (rn - 0.7) ≤ (1 - tl) * 0.3 := by
      nlinarith [mul_nonneg (show (0 : ℝ) ≤ 1 - tl by linarith)
        (show (0 : ℝ) ≤ 1 - rn by linarith)]
    have hdivle : (1 - tl) * (rn - 0.7) / 0.3 ≤ 1 - tl := by
      rw [div_le_iff₀ (by norm_num : (0 : ℝ) < 0.3)]
      linarith
    have hdn : tl ≤ 1 - (1 - tl) * (rn - 0.7) / 0.3 := by linarith
    rw [max_eq_right hdn]
    exact min_eq_right hup
  · intro rn
    exact ⟨le_min h1 (le_max_left _ _), min_le_left _ _⟩

/-- C7 witness: the three parts instantiated at `tip_loss = 0.95` and
normalized radii 0.5, 0.85 and 2. -/
theorem taper_multiplier_piecewise_witness :
    (0 : ℝ) < 0.95 ∧ (0.95 : ℝ) ≤ 1
    ∧ RadialActuatorDisk.taperAt 0.95 0.5 = 1
    ∧ RadialActuatorDisk.taperAt 0.95 0.85 = 1 - (1 - 0.95) * (0.85 - 0.7) / 0.3
    ∧ 0.95 ≤ RadialActuatorDisk.taperAt 0.95 2
    ∧ RadialActuatorDisk.taperAt 0.95 2 ≤ 1 :=
  ⟨by norm_num, by norm_num,
   (taper_multiplier_piecewise 0.95 (by norm_num) (by norm_num)).1 0.5 (by norm_num),
   (taper_multiplier_piecewise 0.95 (by norm_num) (by norm_num)).2.1 0.85
     (by norm_num) (by norm_num),
   ((taper_multiplier_piecewise 0.95 (by norm_num) (by norm_num)).2.2 2).1,
   ((taper_multiplier_piecewise 0.95 (by norm_num) (by norm_num)).2.2 2).2⟩

/-! Nonnegativity of the radial grid and of the induced velocity. -/

theorem linspace_mem_nonneg {a b : ℝ} (ha : 0 ≤ a) (hb : 0 ≤ b) (n : ℕ) :
    ∀ x ∈ linspace a b n, 0 ≤ x := by
  intro x hx
  rw [linspace, List.mem_map] at hx
  obtain ⟨i, hi, rfl⟩ := hx
  rw [List.mem_range] at hi
  rcases Nat.lt_or_ge n 2 with hn | hn
  · cases n with
    | zero => exact absurd hi (Nat.not_lt_zero i)
    | succ k =>
      cases k with
      | zero =>
        have hi0 : i = 0 := by omega
        subst hi0
        simpa using ha
      | succ j => omega
  · have hc : (0 : ℝ) < (n : ℝ) - 1 := by
      have h2 : (2 : ℝ) ≤ (n : ℝ) := by exact_mod_cast hn
      linarith
    have hiR : (i : ℝ) ≤ (n : ℝ) - 1 := by
      have hi1 : (i : ℝ) + 1 ≤ (n : ℝ) := by exact_mod_cast hi
      linarith
    have ht0 : 0 ≤ (i : ℝ) / ((n : ℝ) - 1) := div_nonneg (Nat.cast_nonneg i) hc.le
    have ht1 : (i : ℝ) / ((n : ℝ) - 1) ≤ 1 := (div_le_one hc).2 hiR
    rw [mul_div_right_comm]
    nlinarith [mul_nonneg (sub_nonneg.2 ht1) ha, mul_nonneg ht0 hb]

theorem r_stations_nonneg (m : RadialActuatorDisk) (hd : 0 ≤ m.geom.diameter)
    (hr : 0 ≤ m.geom.hub_radius_ratio) : ∀ x ∈ m.r_stations, 0 ≤ x := by
  have htip : 0 ≤ m.geom.radius := div_nonneg hd (by norm_num)
  have hhub : 0 ≤ m.geom.hub_radius := mul_nonneg htip hr
  exact linspace_mem_nonneg hhub htip m.n_stations

theorem inducedVelocityAt_nonneg (flow : FlowConditions) {dT r : ℝ}
    (hdT : 0 ≤ dT) (hr : 0 ≤ r) (hv : 0 ≤ flow.velocity_inf)
    (hrho : 0 < flow.rho) :
    0 ≤ RadialActuatorDisk.inducedVelocityAt flow dT r := by
  have hden1 : 0 < 4 * Real.pi * flow.rho * (flow.velocity_inf + 0.001) * r + 0.000001 := by
    have h1 : 0 ≤ 4 * Real.pi * flow.rho * (flow.velocity_inf + 0.001) := by positivity
    nlinarith [mul_nonneg h1 hr]
  have hw0 : 0 ≤ dT / (4 * Real.pi * flow.rho * (flow.velocity_inf + 0.001) * r + 0.000001) :=
    div_nonneg hdT hden1.le
  have hden2 : 0 < 4 * Real.pi * flow.rho
      * (flow.velocity_inf
          + 0.5 * (dT / (4 * Real.pi * flow.rho * (flow.velocity_inf + 0.001) * r + 0.000001)))
      * r + 0.000001 := by
    have h2 : 0 ≤ 4 * Real.pi * flow.rho
        * (flow.velocity_inf
            + 0.5 * (dT / (4 * Real.pi * flow.rho * (flow.velocity_inf + 0.001) * r + 0.000001))) := by
      have hsum : 0 ≤ flow.velocity_inf
          + 0.5 * (dT / (4 * Real.pi * flow.rho * (flow.velocity_inf + 0.001) * r + 0.000001)) := by
        nlinarith [hw0]
      positivity
    nlinarith [mul_nonneg h2 hr]
  show 0 ≤ dT / (4 * Real.pi * flow.rho
      * (flow.velocity_inf
          + 0.5 * (dT / (4 * Real.pi * flow.rho * (flow.velocity_inf + 0.001) * r + 0.000001)))
      * r + 0.000001)
  exact div_nonneg hdT hden2.le

/-- C6: whenever every loading entry is nonnegative and the flow has
nonnegative freestream velocity and positive density (with a
physically meaningful geometry: nonnegative diameter and hub ratio),
every element of `compute_induced_velocity` is nonnegative. -/
theorem induced_velocity_elementwise_nonneg (m : RadialActuatorDisk)
    (dT_dr : List ℝ) (flow : FlowConditions)
    (hd : 0 ≤ m.geom.diameter) (hratio : 0 ≤ m.geom.hub_radius_ratio)
    (hload : ∀ x ∈ dT_dr, 0 ≤ x) (hv : 0 ≤ flow.velocity_inf)
    (hrho : 0 < flow.rho) :
    ∀ i : ℕ, 0 ≤ (m.compute_induced_velocity dT_dr flow).getD i 0 := by
  refine getD_nonneg ?_
  intro x hx
  rw [RadialActuatorDisk.compute_induced_velocity] at hx
  obtain ⟨t, r, ht, hrmem, rfl⟩ := mem_zipWith _ hx
  exact inducedVelocityAt_nonneg flow (hload t ht)
    (r_stations_nonneg m hd hratio r hrmem) hv hrho

/-- One-station model on a diameter-2 propeller, used as a concrete
input for witnesses. -/
def modelSmall : RadialActuatorDisk := ⟨⟨2, 2, 0.5⟩, 1, 0.95⟩

/-- Static (zero-velocity) flow at 5000 rpm. -/
def flowStatic : FlowConditions := ⟨0, 5000, 1.225⟩

/-- C6 witness: the theorem applied to the one-station model, the
loading `[0]` and the static flow, read off at index 0. -/
theorem induced_velocity_elementwise_nonneg_witness :
    0 ≤ (modelSmall.compute_induced_velocity [0] flowStatic).getD 0 0 :=
  induced_velocity_elementwise_nonneg modelSmall [0] flowStatic
    (by norm_num [modelSmall])
    (by norm_num [modelSmall])
    (by
      intro x hx
      rw [List.mem_singleton] at hx
      rw [hx])
    (by norm_num [flowStatic])
    (by norm_num [flowStatic]) 0

/-- The induced-velocity computation exactly as the spec words it: a
first full-array estimate `w0 = loading / (4 pi rho (V + eps1) r + eps2)`
with `eps1 = 1e-3` and `eps2 = 1e-6`, followed by exactly one Picard
corrector pass `w = loading / (4 pi rho (V + 0.5 w0) r + eps2)`, and
nothing after it. -/
noncomputable def inducedVelocityTwoStep (m : RadialActuatorDisk)
    (flow : FlowConditions) (loading : List ℝ) : List ℝ :=
  let w0 := List.zipWith
    (fun t r => t / (4 * Real.pi * flow.rho * (flow.velocity_inf + 0.001) * r + 0.000001))
    loading m.r_stations
  List.zipWith3
    (fun t w0i r => t / (4 * Real.pi * flow.rho * (flow.velocity_inf + 0.5 * w0i) * r + 0.000001))
    loading w0 m.r_stations

theorem zipWith_twoStep (flow : FlowConditions) : ∀ (l rs : List ℝ),
    List.zipWith (RadialActuatorDisk.inducedVelocityAt flow) l rs
      = List.zipWith3
          (fun t w0i r =>
            t / (4 * Real.pi * flow.rho * (flow.velocity_inf + 0.5 * w0i) * r + 0.000001))
          l
          (List.zipWith
            (fun t r =>
              t / (4 * Real.pi * flow.rho * (flow.velocity_inf + 0.001) * r + 0.000001))
            l rs)
          rs := by
  intro l
  induction l with
  | nil => intro rs; rfl
  | cons a l ih =>
    intro rs
    cases rs with
    | nil => rfl
    | cons r rs =>
      show RadialActuatorDisk.inducedVelocityAt flow a r
            :: List.zipWith (RadialActuatorDisk.inducedVelocityAt flow) l rs
          = _
      rw [ih rs]
      exact rfl

/-- C4: `compute_induced_velocity` performs exactly one Picard
corrector step and no more: it agrees, for every model, loading array
and flow state, with the two-pass formulation `w0` then `w` written
out in `inducedVelocityTwoStep`. -/
theorem induced_velocity_single_picard (m : RadialActuatorDisk)
    (dT_dr : List ℝ) (flow : FlowConditions) :
    m.compute_induced_velocity dT_dr flow = inducedVelocityTwoStep m flow dT_dr :=
  zipWith_twoStep flow dT_dr m.r_stations

/-! The linspace grid is uniform, so the code's `np.trapz(..., dx=dr[0])`
agrees with the trapezoidal integral over the radial grid. -/

theorem linspace_length (a b : ℝ) (n : ℕ) : (linspace a b n).length = n := by
  rw [linspace, List.length_map, List.length_range]

theorem linspace_chain' (a b : ℝ) (n : ℕ) :
    (linspace a b n).Chain' (fun x y => y - x = (b - a) / ((n : ℝ) - 1)) := by
  rw [linspace, List.chain'_map]
  cases n with
  | zero => simp
  | succ k =>
    rw [List.chain'_range_succ]
    intro i hi
    push_cast
    ring

theorem gradientFirst_of_chain' {h : ℝ} {l : List ℝ}
    (hc : l.Chain' (fun x y => y - x = h)) (hl : 2 ≤ l.length) :
    gradientFirst l = h := by
  rcases l with _ | ⟨a, _ | ⟨b, t⟩⟩
  · simp at hl
  · simp at hl
  · exact (List.chain'_cons.1 hc).1

theorem trapzGrid_eq_trapz (h : ℝ) : ∀ (xs ys : List ℝ),
    xs.Chain' (fun a b => b - a = h) → xs.length = ys.length →
    trapzGrid xs ys = trapz h ys := by
  intro xs
  induction xs with
  | nil =>
    intro ys _ hl
    have hys : ys = [] := by
      have hl0 : ys.length = 0 := by simpa using hl.symm
      rwa [List.length_eq_zero] at hl0
    subst hys
    rfl
  | cons x1 xs ih =>
    intro ys hc hl
    cases xs with
    | nil =>
      rcases ys with _ | ⟨y1, _ | ⟨y2, t⟩⟩
      · rfl
      · rfl
      · simp at hl
    | cons x2 xs2 =>
      rcases ys with _ | ⟨y1, _ | ⟨y2, ys2⟩⟩
      · simp at hl
      · simp at hl
      · have hc1 := (List.chain'_cons.1 hc).1
        have hc2 := (List.chain'_cons.1 hc).2
        have hl2 : (x2 :: xs2).length = (y2 :: ys2).length := by
          simpa using hl
        show (x2 - x1) * (y1 + y2) / 2 + trapzGrid (x2 :: xs2) (y2 :: ys2)
            = h * (y1 + y2) / 2 + trapz h (y2 :: ys2)
        rw [hc1, ih (y2 :: ys2) hc2 hl2]

theorem loading_length (m : RadialActuatorDisk) (coeffs : List ℝ) :
    (m.compute_loading_distribution coeffs).length = m.r_stations.length := by
  rw [RadialActuatorDisk.compute_loading_distribution, List.length_map,
    RadialActuatorDisk.r_norm, List.length_map]

/-- C3: for every coefficient vector and flow state (on a model with at
least two stations), `compute_performance` returns thrust equal to the
trapezoidal integral of the loading over the radial grid, torque equal
to the trapezoidal integral of `0.05 * loading * station_radius`, and
power equal to the trapezoidal integral of
`loading * (velocity_inf + induced_velocity)` plus `torque * omega`. -/
theorem performance_equals_grid_trapezoids (m : RadialActuatorDisk)
    (coeffs : List ℝ) (flow : FlowConditions) (hn : 2 ≤ m.n_stations) :
    (m.compute_performance coeffs flow).thrust
        = trapzGrid m.r_stations (m.compute_performance coeffs flow).dT_dr
    ∧ (m.compute_performance coeffs flow).torque
        = trapzGrid m.r_stations
            (List.zipWith (fun t r => 0.05 * t * r)
              (m.compute_performance coeffs flow).dT_dr m.r_stations)
    ∧ (m.compute_performance coeffs flow).power
        = trapzGrid m.r_stations
            (List.zipWith (fun t wi => t * (flow.velocity_inf + wi))
              (m.compute_performance coeffs flow).dT_dr
              (m.compute_performance coeffs flow).w)
          + (m.compute_performance coeffs flow).torque * flow.omega := by
  have hlen : m.r_stations.length = m.n_stations := by
    rw [RadialActuatorDisk.r_stations, linspace_length]
  have hchain : m.r_stations.Chain'
      (fun x y => y - x
        = (m.geom.radius - m.geom.hub_radius) / ((m.n_stations : ℝ) - 1)) :=
    linspace_chain' _ _ _
  have hgrad : gradientFirst m.r_stations
      = (m.geom.radius - m.geom.hub_radius) / ((m.n_stations : ℝ) - 1) :=
    gradientFirst_of_chain' hchain (by rw [hlen]; exact hn)
  have hLL : (m.compute_loading_distribution coeffs).length = m.r_stations.length :=
    loading_length m coeffs
  have hw : (m.compute_induced_velocity (m.compute_loading_distribution coeffs)
      flow).length = m.r_stations.length := by
    rw [RadialActuatorDisk.compute_induced_velocity, List.length_zipWith, hLL,
      min_self]
  refine ⟨?_, ?_, ?_⟩
  · rw [perf_thrust, perf_dT_dr, hgrad]
    exact (trapzGrid_eq_trapz _ _ _ hchain hLL.symm).symm
  · rw [perf_torque, perf_dT_dr, hgrad]
    refine (trapzGrid_eq_trapz _ _ _ hchain ?_).symm
    rw [List.length_zipWith, hLL, min_self]
  · rw [perf_power, perf_dT_dr, perf_w, hgrad]
    congr 1
    refine (trapzGrid_eq_trapz _ _ _ hchain ?_).symm
    rw [List.length_zipWith, hLL, hw, min_self]

/-- Two-station model on a diameter-2 propeller, a concrete valid
model for witnesses. -/
def modelTwo : RadialActuatorDisk := ⟨⟨2, 2, 0.5⟩, 2, 0.95⟩

/-- Cruise flow at 10 m/s and 5000 rpm. -/
def flowCruise : FlowConditions := ⟨10, 5000, 1.225⟩

/-- C3 witness: the station-count hypothesis holds for the two-station
model and the theorem instantiates there with coefficients `[1]`. -/
theorem performance_equals_grid_trapezoids_witness :
    2 ≤ modelTwo.n_stations
    ∧ ((modelTwo.compute_performance [1] flowCruise).thrust
        = trapzGrid modelTwo.r_stations
            (modelTwo.compute_performance [1] flowCruise).dT_dr
    ∧ (modelTwo.compute_performance [1] flowCruise).torque
        = trapzGrid modelTwo.r_stations
            (List.zipWith (fun t r => 0.05 * t * r)
              (modelTwo.compute_performance [1] flowCruise).dT_dr
              modelTwo.r_stations)
    ∧ (modelTwo.compute_performance [1] flowCruise).power
        = trapzGrid modelTwo.r_stations
            (List.zipWith (fun t wi => t * (flowCruise.velocity_inf + wi))
              (modelTwo.compute_performance [1] flowCruise).dT_dr
              (modelTwo.compute_performance [1] flowCruise).w)
          + (modelTwo.compute_performance [1] flowCruise).torque
              * flowCruise.omega) :=
  ⟨by norm_num [modelTwo],
   performance_equals_grid_trapezoids modelTwo [1] flowCruise (by norm_num [modelTwo])⟩

/-- C9: whenever `optimize_loading` returns an `OptimizationResult`,
its thrust and power fields equal those of a fresh
`compute_performance` call at the result's own `optimal_coeffs` with
the same flow — for every solver behaviour (schedule and output
record), so they are never taken from solver-internal values. -/
theorem result_thrust_power_reevaluated (m : RadialActuatorDisk)
    (flow : FlowConditions) (objective : String) (schedule : List (List ℝ))
    (res : SolverOutput) (r : OptimizationResult) (s : EvalTrace)
    (h : optimize_loading m flow objective schedule res = (Except.ok r, s)) :
    r.thrust = (m.compute_performance r.optimal_coeffs flow).thrust
    ∧ r.power = (m.compute_performance r.optimal_coeffs flow).power := by
  rw [optimize_loading] at h
  rcases hrun : runObjectiveEvals m flow objective schedule initTrace with ⟨exc, s1⟩
  rw [hrun] at h
  cases exc with
  | ok u =>
    simp only [Prod.mk.injEq, Except.ok.injEq] at h
    obtain ⟨hr, _⟩ := h
    subst hr
    exact ⟨rfl, rfl⟩
  | error e =>
    simp at h

/-- A concrete solver output record. -/
def solverOutW : SolverOutput := ⟨[1, 2], true, 0, 3, "done"⟩

/-- C9 witness: with an empty evaluation schedule the optimizer
returns a result, and its thrust and power fields match a fresh
evaluation at its own coefficients. -/
theorem result_thrust_power_reevaluated_witness :
    (finalizeResult modelTwo flowCruise solverOutW initTrace.history).thrust
      = (modelTwo.compute_performance
          (finalizeResult modelTwo flowCruise solverOutW initTrace.history).optimal_coeffs
          flowCruise).thrust
    ∧ (finalizeResult modelTwo flowCruise solverOutW initTrace.history).power
      = (modelTwo.compute_performance
          (finalizeResult modelTwo flowCruise solverOutW initTrace.history).optimal_coeffs
          flowCruise).power :=
  result_thrust_power_reevaluated modelTwo flowCruise "min_power" [] solverOutW
    (finalizeResult modelTwo flowCruise solverOutW initTrace.history) initTrace rfl

/-- C2 (amended): an unrecognized objective kind raises at the FIRST
solver-requested evaluation, not before it: `compute_performance` has
been called exactly once, the history's iter/thrust/power lists each
hold one entry (the objective list none), and the evaluation counter
is 1 when the error propagates. -/
theorem unknown_objective_fails_at_first_evaluation (m : RadialActuatorDisk)
    (flow : FlowConditions) (objective : String) (x0 : List ℝ)
    (rest : List (List ℝ)) (res : SolverOutput)
    (h1 : objective ≠ "min_power") (h2 : objective ≠ "max_thrust") :
    (optimize_loading m flow objective (x0 :: rest) res).1
        = Except.error ("Unknown objective: " ++ objective)
    ∧ (optimize_loading m flow objective (x0 :: rest) res).2.history.iter = [0]
    ∧ (optimize_loading m flow objective (x0 :: rest) res).2.history.objective = []
    ∧ (optimize_loading m flow objective (x0 :: rest) res).2.history.thrust
        = [(m.compute_performance x0 flow).thrust]
    ∧ (optimize_loading m flow objective (x0 :: rest) res).2.history.power
        = [(m.compute_performance x0 flow).power]
    ∧ (optimize_loading m flow objective (x0 :: rest) res).2.iter_count = 1 := by
  have hobj : objective_function m flow objective x0 initTrace
      = (Except.error ("Unknown objective: " ++ objective),
         ⟨⟨[0], [], [(m.compute_performance x0 flow).thrust],
           [(m.compute_performance x0 flow).power]⟩, 1⟩) := by
    rw [objective_function, if_neg h1, if_neg h2]
    exact rfl
  have hrun : runObjectiveEvals m flow objective (x0 :: rest) initTrace
      = (Except.error ("Unknown objective: " ++ objective),
         ⟨⟨[0], [], [(m.compute_performance x0 flow).thrust],
           [(m.compute_performance x0 flow).power]⟩, 1⟩) := by
    rw [runObjectiveEvals, hobj]
  have hopt : optimize_loading m flow objective (x0 :: rest) res
      = (Except.error ("Unknown objective: " ++ objective),
         ⟨⟨[0], [], [(m.compute_performance x0 flow).thrust],
           [(m.compute_performance x0 flow).power]⟩, 1⟩) := by
    rw [optimize_loading, hrun]
  rw [hopt]
  exact ⟨rfl, rfl, rfl, rfl, rfl, rfl⟩

/-- C2 witness for the amended claim: the objective string
"bad_objective" is neither recognized kind, and the error surfaces
after exactly one recorded evaluation. -/
theorem unknown_objective_fails_at_first_evaluation_witness :
    (optimize_loading modelTwo flowCruise "bad_objective" ([1, 1, 1, 1, 1] :: [])
        solverOutW).1
      = Except.error ("Unknown objective: " ++ "bad_objective")
    ∧ (optimize_loading modelTwo flowCruise "bad_objective" ([1, 1, 1, 1, 1] :: [])
        solverOutW).2.history.iter = [0]
    ∧ (optimize_loading modelTwo flowCruise "bad_objective" ([1, 1, 1, 1, 1] :: [])
        solverOutW).2.history.objective = []
    ∧ (optimize_loading modelTwo flowCruise "bad_objective" ([1, 1, 1, 1, 1] :: [])
        solverOutW).2.history.thrust
      = [(modelTwo.compute_performance [1, 1, 1, 1, 1] flowCruise).thrust]
    ∧ (optimize_loading modelTwo flowCruise "bad_objective" ([1, 1, 1, 1, 1] :: [])
        solverOutW).2.history.power
      = [(modelTwo.compute_performance [1, 1, 1, 1, 1] flowCruise).power]
    ∧ (optimize_loading modelTwo flowCruise "bad_objective" ([1, 1, 1, 1, 1] :: [])
        solverOutW).2.iter_count = 1 :=
  unknown_objective_fails_at_first_evaluation modelTwo flowCruise "bad_objective"
    [1, 1, 1, 1, 1] [] solverOutW (by decide) (by decide)

/-- C2 counterexample: at a concrete unrecognized objective the
optimizer run does NOT fail with an empty history and a zero
evaluation count — one model evaluation is recorded (`iter = [0]`, one
thrust entry) and the counter is 1 when the error propagates,
contradicting the claim's "no call to compute_performance occurs, the
accumulated history is empty, and the iteration count is 0". -/
theorem unknown_objective_counterexample :
    (optimize_loading modelTwo flowCruise "bad_objective" [[1, 1, 1, 1, 1]]
        solverOutW).1
      = Except.error "Unknown objective: bad_objective"
    ∧ (optimize_loading modelTwo flowCruise "bad_objective" [[1, 1, 1, 1, 1]]
        solverOutW).2.history.iter ≠ []
    ∧ (optimize_loading modelTwo flowCruise "bad_objective" [[1, 1, 1, 1, 1]]
        solverOutW).2.history.thrust.length = 1
    ∧ (optimize_loading modelTwo flowCruise "bad_objective" [[1, 1, 1, 1, 1]]
        solverOutW).2.iter_count ≠ 0 := by
  have hobj : objective_function modelTwo flowCruise "bad_objective" [1, 1, 1, 1, 1]
      initTrace
      = (Except.error "Unknown objective: bad_objective",
         ⟨⟨[0], [],
           [(modelTwo.compute_performance [1, 1, 1, 1, 1] flowCruise).thrust],
           [(modelTwo.compute_performance [1, 1, 1, 1, 1] flowCruise).power]⟩, 1⟩) := by
    rw [objective_function, if_neg (by decide : ¬("bad_objective" = "min_power")),
      if_neg (by decide : ¬("bad_objective" = "max_thrust"))]
    exact rfl
  have hopt : optimize_loading modelTwo flowCruise "bad_objective" [[1, 1, 1, 1, 1]]
      solverOutW
      = (Except.error "Unknown objective: bad_objective",
         ⟨⟨[0], [],
           [(modelTwo.compute_performance [1, 1, 1, 1, 1] flowCruise).thrust],
           [(modelTwo.compute_performance [1, 1, 1, 1, 1] flowCruise).power]⟩, 1⟩) := by
    rw [optimize_loading, runObjectiveEvals, hobj]
  rw [hopt]
  refine ⟨rfl, ?_, rfl, ?_⟩
  · decide
  · decide

end Propforce
